import Mathlib

/-!
Verification of the Intellirate rate-limiting and request-proxy pipeline.

Shallow embedding of:
  - `backend/app/core/config.py` (Settings: tier limits, window length)
  - `backend/app/api/v1/rate_limits.py` (determine_user_tier, TIER_CONFIG)
  - `backend/app/middleware/rate_limiter.py` (RateLimiter.check_rate_limit,
    RateLimiter.get_remaining_quota)
  - `backend/app/services/groq_service.py` (GroqService.proxy_to_groq)
  - `backend/app/services/logging_service.py` (LoggingService.log_response)
  - `backend/app/models/request_log.py` (RequestLog)
  - `backend/app/api/v1/proxy.py` (proxy_groq_request finalization paths)

The Redis counter store is modelled as an association list from keys to
counts; fallibility of each store operation is an explicit `StoreFault`
parameter (the Python wraps the get / incr / expire sequence in one
try-except that logs a warning and allows the request).
-/

namespace Intellirate

/-- Settings.RATE_LIMIT_FREE from core/config.py (requests per hour). -/
def RATE_LIMIT_FREE : Int := 50

/-- Settings.RATE_LIMIT_PRO from core/config.py (requests per hour). -/
def RATE_LIMIT_PRO : Int := 1000

/-- Settings.RATE_LIMIT_ENTERPRISE from core/config.py: -1 means unlimited. -/
def RATE_LIMIT_ENTERPRISE : Int := -1

/-- Settings.RATE_LIMIT_WINDOW_SECONDS from core/config.py (1 hour). -/
def RATE_LIMIT_WINDOW_SECONDS : Nat := 3600

/-- Tier-default limit lookup in check_rate_limit / get_remaining_quota:
`limits.get(tier, settings.RATE_LIMIT_FREE)` over the dict
free / pro / enterprise, with free as the fallback for unknown tiers. -/
def tierLimit (tier : String) : Int :=
  if tier = "free" then RATE_LIMIT_FREE
  else if tier = "pro" then RATE_LIMIT_PRO
  else if tier = "enterprise" then RATE_LIMIT_ENTERPRISE
  else RATE_LIMIT_FREE

/-- determine_user_tier from api/v1/rate_limits.py: tier inferred from the
trailing request count. -/
def determine_user_tier (total_requests : Nat) : String :=
  if total_requests > 50000 then "enterprise"
  else if total_requests > 5000 then "pro"
  else "free"

/-- UserRateLimitConfig row (models/user_rate_limit_config.py): tier and
custom_limit are both non-nullable columns. -/
structure UserRateLimitConfig where
  user_id : String
  tier : String
  custom_limit : Int
deriving DecidableEq

/-- Result of the `db.query(UserRateLimitConfig)...first()` prologue of
check_rate_limit / get_remaining_quota: no session passed, no row found,
the query raised (caught with a warning), or a row was found. -/
inductive DbLookup where
  | noDb
  | notFound
  | fetchError
  | found (config : UserRateLimitConfig)
deriving DecidableEq

/-- The shared resolution prologue of check_rate_limit and
get_remaining_quota: a found config overrides both tier and limit
(custom_limit is non-nullable); every other case falls back to the
tier-default limits for the caller-supplied tier. -/
def resolvePolicy (tier : String) (db : DbLookup) : String × Int :=
  match db with
  | DbLookup.found config => (config.tier, config.custom_limit)
  | _ => (tier, tierLimit tier)

/-- Resolved tier (first component of resolvePolicy). -/
def resolvedTier (tier : String) (db : DbLookup) : String :=
  (resolvePolicy tier db).1

/-- Resolved limit (second component of resolvePolicy). -/
def resolvedLimit (tier : String) (db : DbLookup) : Int :=
  (resolvePolicy tier db).2

/-- Redis counter store: association list from keys to counts. -/
abbrev RedisStore := List (String × Nat)

/-- redis GET of a counter key (absent key reads as 0 at the caller). -/
def storeLookup : RedisStore → String → Option Nat
  | [], _ => none
  | (k, v) :: rest, key => if k = key then some v else storeLookup rest key

/-- redis INCR: create the key at 1 when absent, else add one. -/
def storeIncr : RedisStore → String → RedisStore
  | [], key => [(key, 1)]
  | (k, v) :: rest, key =>
    if k = key then (k, v + 1) :: rest else (k, v) :: storeIncr rest key

/-- current_count as computed in check_rate_limit:
`int(count) if count else 0`. -/
def storeCount (s : RedisStore) (key : String) : Nat :=
  (storeLookup s key).getD 0

/-- Redis key built in check_rate_limit:
`f"ratelimit:\x7buser_id\x7d:\x7bcurrent_window\x7d"`. -/
def redisKey (user_id : String) (current_window : Nat) : String :=
  "ratelimit:" ++ user_id ++ ":" ++ toString current_window

/-- Key for the current window: `current_window = int(time.time() / window_seconds)`. -/
def checkKey (user_id : String) (now : Nat) : String :=
  redisKey user_id (now / RATE_LIMIT_WINDOW_SECONDS)

/-- retry_after computed on rejection:
`window_seconds - (int(time.time()) % window_seconds)`. -/
def retryAfter (now : Nat) : Nat :=
  RATE_LIMIT_WINDOW_SECONDS - now % RATE_LIMIT_WINDOW_SECONDS

/-- JSON detail of the 429 HTTPException raised by check_rate_limit. -/
structure RateLimitDetail where
  error : String
  code : String
  retry_after : Nat
  limit : Int
  window : String
  tier : String
deriving DecidableEq

/-- The HTTPException raised by check_rate_limit on rejection: status 429,
JSON detail, and a Retry-After header. -/
structure RateLimitHTTPException where
  status_code : Nat
  detail : RateLimitDetail
  retryAfterHeader : String
deriving DecidableEq

/-- The exact HTTPException constructed in check_rate_limit. -/
def rateLimitException (tier : String) (limit : Int) (now : Nat) :
    RateLimitHTTPException :=
  { status_code := 429
    detail :=
      { error := "Rate limit exceeded"
        code := "RATE_LIMIT"
        retry_after := retryAfter now
        limit := limit
        window := toString RATE_LIMIT_WINDOW_SECONDS ++ " seconds (1 hour)"
        tier := tier }
    retryAfterHeader := toString (retryAfter now) }

/-- Which, if any, of the redis operations in the try block of
check_rate_limit raises. The Python catch-all turns any of these into a
logged warning plus an allowed request; the missing incr / expire methods
on the RedisClient wrapper are instances of onIncr / onExpire. -/
inductive StoreFault where
  | ok
  | onGet
  | onIncr
  | onExpire
deriving DecidableEq

/-- Outcome of check_rate_limit: normal return, or the 429 HTTPException. -/
inductive CheckOutcome where
  | allowed
  | rejected (e : RateLimitHTTPException)
deriving DecidableEq

/-- Result of one check_rate_limit call: its outcome, the store afterwards,
whether any store operation was attempted, and whether the store-failure
warning was logged. -/
structure CheckResult where
  outcome : CheckOutcome
  store : RedisStore
  storeAccessed : Bool
  warned : Bool
deriving DecidableEq

/-- RateLimiter.check_rate_limit from middleware/rate_limiter.py.
Control flow of the source: resolve custom limit / tier defaults; return
immediately when limit = -1; GET the counter; raise 429 when
current_count >= limit; INCR; EXPIRE when current_count was 0; any
store exception is caught, logged as a warning, and the request allowed. -/
def check_rate_limit (user_id : String) (tier : String) (db : DbLookup)
    (now : Nat) (store : RedisStore) (fault : StoreFault) : CheckResult :=
  if resolvedLimit tier db = -1 then
    { outcome := CheckOutcome.allowed, store := store
      storeAccessed := false, warned := false }
  else if fault = StoreFault.onGet then
    { outcome := CheckOutcome.allowed, store := store
      storeAccessed := true, warned := true }
  else if (storeCount store (checkKey user_id now) : Int) ≥ resolvedLimit tier db then
    { outcome := CheckOutcome.rejected
        (rateLimitException (resolvedTier tier db) (resolvedLimit tier db) now)
      store := store, storeAccessed := true, warned := false }
  else if fault = StoreFault.onIncr then
    { outcome := CheckOutcome.allowed, store := store
      storeAccessed := true, warned := true }
  else if storeCount store (checkKey user_id now) = 0 ∧ fault = StoreFault.onExpire then
    { outcome := CheckOutcome.allowed, store := storeIncr store (checkKey user_id now)
      storeAccessed := true, warned := true }
  else
    { outcome := CheckOutcome.allowed, store := storeIncr store (checkKey user_id now)
      storeAccessed := true, warned := false }

/-- Sequential (linearized) repetition of check_rate_limit against one
store with a healthy store: returns the number of admitted calls and the
final store. -/
def runChecks (user_id tier : String) (db : DbLookup) (now : Nat) :
    Nat → RedisStore → Nat × RedisStore
  | 0, store => (0, store)
  | n + 1, store =>
    let r := check_rate_limit user_id tier db now store StoreFault.ok
    let rest := runChecks user_id tier db now n r.store
    ((if r.outcome = CheckOutcome.allowed then 1 else 0) + rest.1, rest.2)

/-- Quota report returned by RateLimiter.get_remaining_quota. -/
structure QuotaInfo where
  limit : Int
  used : Nat
  remaining : Int
  window_seconds : Nat
  tier : String
  unlimited : Bool
deriving DecidableEq

/-- RateLimiter.get_remaining_quota from middleware/rate_limiter.py.
Resolution prologue as in check_rate_limit; limit = -1 reports the
unlimited shape; a store read failure is caught and reported as
used = 0, remaining = limit; otherwise remaining = max(0, limit - used). -/
def get_remaining_quota (user_id tier : String) (db : DbLookup)
    (now : Nat) (store : RedisStore) (storeFails : Bool) : QuotaInfo :=
  if resolvedLimit tier db = -1 then
    { limit := -1, used := 0, remaining := -1
      window_seconds := RATE_LIMIT_WINDOW_SECONDS
      tier := resolvedTier tier db, unlimited := true }
  else if storeFails then
    { limit := resolvedLimit tier db, used := 0
      remaining := resolvedLimit tier db
      window_seconds := RATE_LIMIT_WINDOW_SECONDS
      tier := resolvedTier tier db, unlimited := false }
  else
    { limit := resolvedLimit tier db
      used := storeCount store (checkKey user_id now)
      remaining := max 0 (resolvedLimit tier db - (storeCount store (checkKey user_id now) : Int))
      window_seconds := RATE_LIMIT_WINDOW_SECONDS
      tier := resolvedTier tier db, unlimited := false }

/-- GroqAPIError from services/groq_service.py: message, caller-facing
status_code, and the raw upstream status when there was one. -/
structure GroqAPIError where
  message : String
  status_code : Nat
  groq_status : Option Nat
deriving DecidableEq

/-- What the upstream HTTP call inside proxy_to_groq produced: a response
with some status, an httpx.TimeoutException, an httpx.ConnectError, or
any other exception. -/
inductive UpstreamOutcome where
  | response (status : Nat) (body : String)
  | timeout
  | connectError
  | otherError (msg : String)
deriving DecidableEq

/-- The status-classification branch of GroqService.proxy_to_groq
(services/groq_service.py): the if/elif chain inside the try block that
either returns the 200 body or raises a classified GroqAPIError. -/
def classifyGroqResponse (status : Nat) (body : String) (latency_ms : Nat) :
    Except GroqAPIError (String × Nat × Nat) :=
  if status = 200 then Except.ok (body, 200, latency_ms)
  else if status = 401 then
    Except.error
      { message := "Groq API authentication failed"
        status_code := 502, groq_status := some 401 }
  else if status = 429 then
    Except.error
      { message := "Groq API rate limit exceeded"
        status_code := 429, groq_status := some 429 }
  else if status ≥ 500 then
    Except.error
      { message := "Groq API server error"
        status_code := 502, groq_status := some status }
  else
    Except.error
      { message := "Groq API error: " ++ body
        status_code := 502, groq_status := some status }

/-- GroqService.proxy_to_groq from services/groq_service.py. The
classified raises of classifyGroqResponse happen inside the try block,
and GroqAPIError is a plain Exception subclass, so the trailing
`except Exception as e` catch-all catches every one of them and
re-raises GroqAPIError(f"Groq API request failed: \x7bstr(e)\x7d",
status_code=502, groq_status=None), where str(e) is the classified
error's message. The timeout and connect-error raises occur inside
their own except handlers and propagate unwrapped. -/
def proxy_to_groq (outcome : UpstreamOutcome) (latency_ms : Nat) :
    Except GroqAPIError (String × Nat × Nat) :=
  match outcome with
  | UpstreamOutcome.response status body =>
    match classifyGroqResponse status body latency_ms with
    | Except.ok r => Except.ok r
    | Except.error e =>
      Except.error
        { message := "Groq API request failed: " ++ e.message
          status_code := 502, groq_status := none }
  | UpstreamOutcome.timeout =>
    Except.error
      { message := "Groq API request timeout"
        status_code := 504, groq_status := none }
  | UpstreamOutcome.connectError =>
    Except.error
      { message := "Failed to connect to Groq API"
        status_code := 502, groq_status := none }
  | UpstreamOutcome.otherError msg =>
    Except.error
      { message := "Groq API request failed: " ++ msg
        status_code := 502, groq_status := none }

deriving instance DecidableEq for Except

/-- Caller-facing status of a proxy_to_groq result: none on success,
the raised error's status_code otherwise. -/
def exceptStatus : Except GroqAPIError (String × Nat × Nat) → Option Nat
  | Except.ok _ => none
  | Except.error e => some e.status_code

/-- The token-usage block of a Groq response
(`usage.get(...)` with 0 defaults). -/
structure UsageData where
  prompt_tokens : Nat
  completion_tokens : Nat
  total_tokens : Nat
deriving DecidableEq

/-- The mutable response-side fields of a RequestLog row
(models/request_log.py): nullable columns are Options; the three token
columns default to 0. -/
structure RequestLogRec where
  request_id : String
  user_id : String
  completed_at : Option Nat
  status_code : Option Nat
  success : Option Bool
  error : Option String
  prompt_tokens : Nat
  completion_tokens : Nat
  total_tokens : Nat
  latency_ms : Option Nat
  groq_latency_ms : Option Nat
deriving DecidableEq

/-- A freshly created RequestLog row, as written by
LoggingService.log_request and by the proxy endpoint's initial insert:
response fields unset (pending), token counts at their column default 0. -/
def newRequestLog (request_id user_id : String) : RequestLogRec :=
  { request_id := request_id, user_id := user_id
    completed_at := none, status_code := none, success := none, error := none
    prompt_tokens := 0, completion_tokens := 0, total_tokens := 0
    latency_ms := none, groq_latency_ms := none }

/-- LoggingService.log_response from services/logging_service.py, applied
to a found row: sets status_code, success, error, both latencies and
completed_at unconditionally; overwrites the token counts only when
success is true and response_data is present. -/
def log_response (entry : RequestLogRec) (status_code : Nat) (success : Bool)
    (response_data : Option UsageData) (error : Option String)
    (latency_ms groq_latency_ms : Nat) (now : Nat) : RequestLogRec :=
  let updated :=
    { entry with
      status_code := some status_code
      success := some success
      error := error
      latency_ms := some latency_ms
      groq_latency_ms := some groq_latency_ms
      completed_at := some now }
  match response_data with
  | some usage =>
    if success then
      { updated with
        prompt_tokens := usage.prompt_tokens
        completion_tokens := usage.completion_tokens
        total_tokens := usage.total_tokens }
    else updated
  | none => updated

/-- Success finalization in proxy_groq_request (api/v1/proxy.py): sets
completed_at, status_code, success = true, the token counts, and both
latencies. -/
def orchestratorUpdateSuccess (entry : RequestLogRec) (status_code : Nat)
    (usage : UsageData) (now latency groq_latency : Nat) : RequestLogRec :=
  { entry with
    completed_at := some now
    status_code := some status_code
    success := some true
    prompt_tokens := usage.prompt_tokens
    completion_tokens := usage.completion_tokens
    total_tokens := usage.total_tokens
    latency_ms := some latency
    groq_latency_ms := some groq_latency }

/-- GroqAPIError finalization in proxy_groq_request: status_code is
`e.groq_status or e.status_code`, success = false, error message and
total latency recorded; token counts untouched. -/
def orchestratorUpdateGroqError (entry : RequestLogRec) (e : GroqAPIError)
    (now latency : Nat) : RequestLogRec :=
  { entry with
    completed_at := some now
    status_code := some (e.groq_status.getD e.status_code)
    success := some false
    error := some e.message
    latency_ms := some latency }

/-- Unexpected-exception finalization in proxy_groq_request: status 500,
success = false, error message, total latency; token counts untouched. -/
def orchestratorUpdateUnexpected (entry : RequestLogRec) (msg : String)
    (now latency : Nat) : RequestLogRec :=
  { entry with
    completed_at := some now
    status_code := some 500
    success := some false
    error := some msg
    latency_ms := some latency }

/-- The RequestRecord invariant of the spec: completed_at is set exactly
when success is non-pending, and the token counts are zero unless
success = true. -/
def recordInvariant (entry : RequestLogRec) : Prop :=
  entry.completed_at.isSome = entry.success.isSome ∧
  (entry.success = some true ∨
    (entry.prompt_tokens = 0 ∧ entry.completion_tokens = 0 ∧
      entry.total_tokens = 0))

instance (entry : RequestLogRec) : Decidable (recordInvariant entry) := by
  unfold recordInvariant
  infer_instance

/-! Helper lemmas about the store model. -/

theorem storeLookup_incr_self (s : RedisStore) (key : String) :
    storeLookup (storeIncr s key) key = some ((storeLookup s key).getD 0 + 1) := by
  induction s with
  | nil => simp [storeIncr, storeLookup]
  | cons head tail ih =>
    obtain ⟨k, v⟩ := head
    by_cases h : k = key
    · simp [storeIncr, storeLookup, h]
    · simp [storeIncr, storeLookup, h, ih]

theorem storeLookup_incr_other (s : RedisStore) (key j : String) (h : j ≠ key) :
    storeLookup (storeIncr s key) j = storeLookup s j := by
  have hkj : key ≠ j := Ne.symm h
  induction s with
  | nil => simp [storeIncr, storeLookup, hkj]
  | cons head tail ih =>
    obtain ⟨k, v⟩ := head
    by_cases hk : k = key
    · subst hk
      simp [storeIncr, storeLookup, hkj]
    · by_cases hj : k = j
      · subst hj
        simp [storeIncr, storeLookup, hk]
      · simp [storeIncr, storeLookup, hk, hj, ih]

theorem storeCount_incr_self (s : RedisStore) (key : String) :
    storeCount (storeIncr s key) key = storeCount s key + 1 := by
  simp [storeCount, storeLookup_incr_self]

theorem storeCount_le_incr (s : RedisStore) (key j : String) :
    storeCount s j ≤ storeCount (storeIncr s key) j := by
  by_cases h : j = key
  · subst h
    rw [storeCount_incr_self]
    exact Nat.le_succ _
  · rw [storeCount, storeCount, storeLookup_incr_other s key j h]

/-! Case-analysis lemmas for check_rate_limit. -/

theorem check_eq_unlimited (u t : String) (db : DbLookup) (now : Nat)
    (s : RedisStore) (fault : StoreFault)
    (h : resolvedLimit t db = -1) :
    check_rate_limit u t db now s fault =
      { outcome := CheckOutcome.allowed, store := s
        storeAccessed := false, warned := false } := by
  unfold check_rate_limit
  rw [if_pos h]

theorem check_eq_rejected (u t : String) (db : DbLookup) (now : Nat)
    (s : RedisStore) (fault : StoreFault)
    (hfin : resolvedLimit t db ≠ -1)
    (hnotGet : fault ≠ StoreFault.onGet)
    (hge : (storeCount s (checkKey u now) : Int) ≥ resolvedLimit t db) :
    check_rate_limit u t db now s fault =
      { outcome := CheckOutcome.rejected
          (rateLimitException (resolvedTier t db) (resolvedLimit t db) now)
        store := s, storeAccessed := true, warned := false } := by
  unfold check_rate_limit
  rw [if_neg hfin, if_neg hnotGet, if_pos hge]

theorem check_eq_allowed_incr (u t : String) (db : DbLookup) (now : Nat)
    (s : RedisStore) (L : Nat)
    (hL : resolvedLimit t db = (L : Int))
    (hlt : storeCount s (checkKey u now) < L) :
    check_rate_limit u t db now s StoreFault.ok =
      { outcome := CheckOutcome.allowed
        store := storeIncr s (checkKey u now)
        storeAccessed := true, warned := false } := by
  unfold check_rate_limit
  rw [if_neg (by rw [hL]; omega)]
  rw [if_neg (by intro h; exact StoreFault.noConfusion h)]
  rw [if_neg (by rw [hL]; omega)]
  rw [if_neg (by intro h; exact StoreFault.noConfusion h)]
  rw [if_neg (by rintro ⟨-, h⟩; exact StoreFault.noConfusion h)]

/-- Core counting lemma: against a healthy store, sequential calls with a
finite non-negative resolved limit L admit exactly
min n (L - current count) requests. -/
theorem runChecks_admitted (u t : String) (db : DbLookup) (now : Nat) (L : Nat)
    (hL : resolvedLimit t db = (L : Int)) :
    ∀ n s, storeCount s (checkKey u now) ≤ L →
      (runChecks u t db now n s).1 = min n (L - storeCount s (checkKey u now)) := by
  intro n
  induction n with
  | zero => intro s _; simp [runChecks]
  | succ n ih =>
    intro s hc
    by_cases hlt : storeCount s (checkKey u now) < L
    · have hstep := check_eq_allowed_incr u t db now s L hL hlt
      have hnew := storeCount_incr_self s (checkKey u now)
      have hrec := ih (storeIncr s (checkKey u now)) (by omega)
      simp only [runChecks, hstep, hrec, hnew]
      simp
      omega
    · have heq : storeCount s (checkKey u now) = L := by omega
      have hstep := check_eq_rejected u t db now s StoreFault.ok
        (by rw [hL]; omega)
        (by intro h; exact StoreFault.noConfusion h)
        (by rw [hL]; omega)
      have hrec := ih s hc
      simp only [runChecks, hstep, hrec]
      simp only [heq]
      have : ¬ (CheckOutcome.rejected
          (rateLimitException (resolvedTier t db) (resolvedLimit t db) now) =
          CheckOutcome.allowed) := by
        intro h; exact CheckOutcome.noConfusion h
      simp only [if_neg this]
      omega

/-- A store in which user u1 has already used 50 requests (the free-tier
limit) in window 0. -/
def c1Store : RedisStore := [("ratelimit:u1:0", 50)]

/-- C1 counterexample: at the saturated counter the call is rejected, yet
the store is left unchanged — the rejected call does NOT increment the
per-(user, window) counter, contrary to the claim's
pre-increment-then-compare reading. -/
theorem c1_counterexample :
    (check_rate_limit "u1" "free" DbLookup.noDb 0 c1Store StoreFault.ok).outcome ≠
        CheckOutcome.allowed ∧
    (check_rate_limit "u1" "free" DbLookup.noDb 0 c1Store StoreFault.ok).store = c1Store := by
  decide

/-- C1 (amended): check_rate_limit reads the counter and raises 429
before any increment, so every call rejected for exceeding the limit
leaves the store — and hence the per-(user, window) counter — unchanged;
a sustained flood of rejected calls leaves the saturated counter fixed
(counts are still monotonically non-decreasing, since only admitted calls
increment). -/
theorem c1_amended (u t : String) (db : DbLookup) (now : Nat)
    (s : RedisStore) (fault : StoreFault) (e : RateLimitHTTPException)
    (hrej : (check_rate_limit u t db now s fault).outcome = CheckOutcome.rejected e) :
    (check_rate_limit u t db now s fault).store = s := by
  revert hrej
  unfold check_rate_limit
  repeat' split
  all_goals intro hrej
  all_goals first | rfl | simp at hrej

/-- C1 witness: the amended theorem applied at the saturated free-tier
store. -/
theorem c1_amended_witness :
    (check_rate_limit "u1" "free" DbLookup.noDb 0 c1Store StoreFault.ok).store = c1Store :=
  c1_amended "u1" "free" DbLookup.noDb 0 c1Store StoreFault.ok
    (rateLimitException "free" 50 0) (by decide)

/-- C2: with a reachable store and linearized (sequential) calls, a user
whose resolved limit is a finite L ≥ 1 is admitted at most L times within
one window, and with L = 1 exactly one call is admitted. -/
theorem c2_admission_bound (u t : String) (db : DbLookup) (now : Nat) (n L : Nat)
    (hL : resolvedLimit t db = (L : Int)) (hpos : 1 ≤ L) :
    (runChecks u t db now n []).1 ≤ L ∧
    (L = 1 → 1 ≤ n → (runChecks u t db now n []).1 = 1) := by
  have h0 : storeCount ([] : RedisStore) (checkKey u now) = 0 := rfl
  have h := runChecks_admitted u t db now L hL n [] (by rw [h0]; omega)
  rw [h0] at h
  constructor
  · rw [h]; omega
  · intro h1 hn; rw [h]; omega

/-- Config row giving user u2 a persisted custom limit of 1 per window. -/
def c2Config : UserRateLimitConfig :=
  { user_id := "u2", tier := "pro", custom_limit := 1 }

/-- C2 witness: with limit 1, three sequential calls admit exactly one. -/
theorem c2_admission_bound_witness :
    resolvedLimit "pro" (DbLookup.found c2Config) = (1 : Int) ∧ 1 ≤ 1 ∧
    ((runChecks "u2" "pro" (DbLookup.found c2Config) 0 3 []).1 ≤ 1 ∧
      (1 = 1 → 1 ≤ 3 →
        (runChecks "u2" "pro" (DbLookup.found c2Config) 0 3 []).1 = 1)) :=
  ⟨by decide, by decide,
    c2_admission_bound "u2" "pro" (DbLookup.found c2Config) 0 3 1 (by decide) (by decide)⟩

/-- C5: fail-open. Whenever a store operation raises (the warning is
logged), the call returns normally; and when the store is unreachable
(the GET itself raises) every call with a finite limit is admitted with
a warning — a store failure never surfaces as a request error. -/
theorem c5_fail_open (u t : String) (db : DbLookup) (now : Nat)
    (s : RedisStore) (fault : StoreFault) :
    ((check_rate_limit u t db now s fault).warned = true →
      (check_rate_limit u t db now s fault).outcome = CheckOutcome.allowed) ∧
    (fault = StoreFault.onGet → resolvedLimit t db ≠ -1 →
      (check_rate_limit u t db now s fault).outcome = CheckOutcome.allowed ∧
      (check_rate_limit u t db now s fault).warned = true) := by
  constructor
  · unfold check_rate_limit
    repeat' split
    all_goals intro h
    all_goals first | rfl | simp at h
  · intro hf hfin
    subst hf
    unfold check_rate_limit
    rw [if_neg hfin, if_pos rfl]
    exact ⟨rfl, rfl⟩

/-- C5 witness: unreachable store (GET raises) for a free-tier user: the
request is admitted and the warning flag is set. -/
theorem c5_fail_open_witness :
    (check_rate_limit "u5" "free" DbLookup.noDb 0 [] StoreFault.onGet).outcome =
        CheckOutcome.allowed ∧
    (check_rate_limit "u5" "free" DbLookup.noDb 0 [] StoreFault.onGet).warned = true :=
  (c5_fail_open "u5" "free" DbLookup.noDb 0 [] StoreFault.onGet).2 rfl (by decide)

/-- C6: a resolved limit of -1 (the unlimited sentinel) makes
check_rate_limit return the allowed result with the store untouched, no
store access, and no warning — for every store state and every fault. -/
theorem c6_unlimited (u t : String) (db : DbLookup) (now : Nat)
    (s : RedisStore) (fault : StoreFault)
    (h : resolvedLimit t db = -1) :
    check_rate_limit u t db now s fault =
      { outcome := CheckOutcome.allowed, store := s
        storeAccessed := false, warned := false } :=
  check_eq_unlimited u t db now s fault h

/-- C6 witness: an enterprise-tier user with a busy store and a failing
store is still admitted with zero store accesses. -/
theorem c6_unlimited_witness :
    resolvedLimit "enterprise" DbLookup.noDb = -1 ∧
    check_rate_limit "u6" "enterprise" DbLookup.noDb 5 [("ratelimit:u6:0", 999)]
        StoreFault.onGet =
      { outcome := CheckOutcome.allowed, store := [("ratelimit:u6:0", 999)]
        storeAccessed := false, warned := false } :=
  ⟨by decide,
    c6_unlimited "u6" "enterprise" DbLookup.noDb 5 [("ratelimit:u6:0", 999)]
      StoreFault.onGet (by decide)⟩

/-- C7: every rejection raised by check_rate_limit is a 429 whose
retry_after is window_seconds - (now mod window_seconds), whose
Retry-After header is that value rendered as a string, and whose JSON
detail carries error, code = "RATE_LIMIT", retry_after, the resolved
limit and the resolved tier. -/
theorem c7_rejection_payload (u t : String) (db : DbLookup) (now : Nat)
    (s : RedisStore) (fault : StoreFault) (e : RateLimitHTTPException)
    (h : (check_rate_limit u t db now s fault).outcome = CheckOutcome.rejected e) :
    e.status_code = 429 ∧
    e.detail.retry_after = RATE_LIMIT_WINDOW_SECONDS - now % RATE_LIMIT_WINDOW_SECONDS ∧
    e.retryAfterHeader = toString e.detail.retry_after ∧
    e.detail.error = "Rate limit exceeded" ∧
    e.detail.code = "RATE_LIMIT" ∧
    e.detail.limit = resolvedLimit t db ∧
    e.detail.tier = resolvedTier t db := by
  revert h
  unfold check_rate_limit
  repeat' split
  all_goals intro h
  all_goals first
    | { injection h with h1
        subst h1
        exact ⟨rfl, rfl, rfl, rfl, rfl, rfl, rfl⟩ }
    | simp at h

/-- Store in which user u7 has exhausted the free-tier limit. -/
def c7Store : RedisStore := [("ratelimit:u7:0", 50)]

/-- C7 witness: the payload facts at a concrete rejection. -/
theorem c7_rejection_payload_witness :
    (rateLimitException "free" 50 0).status_code = 429 ∧
    (rateLimitException "free" 50 0).detail.retry_after =
      RATE_LIMIT_WINDOW_SECONDS - 0 % RATE_LIMIT_WINDOW_SECONDS ∧
    (rateLimitException "free" 50 0).retryAfterHeader =
      toString (rateLimitException "free" 50 0).detail.retry_after ∧
    (rateLimitException "free" 50 0).detail.error = "Rate limit exceeded" ∧
    (rateLimitException "free" 50 0).detail.code = "RATE_LIMIT" ∧
    (rateLimitException "free" 50 0).detail.limit = resolvedLimit "free" DbLookup.noDb ∧
    (rateLimitException "free" 50 0).detail.tier = resolvedTier "free" DbLookup.noDb :=
  c7_rejection_payload "u7" "free" DbLookup.noDb 0 c7Store StoreFault.ok
    (rateLimitException "free" 50 0) (by decide)

/-- C3: evaluation of proxy_to_groq at the failing input and around it.
An upstream 429 response does NOT surface with caller-facing status 429:
the 429-classified raise inside the try block is caught by the
function's own trailing catch-all and re-wrapped with status_code = 502
and groq_status = none, so the caller sees 502 — contradicting the
claimed (and intended) 429 → 429 mapping. Every other conjunct of the
claimed mapping holds: 200 passes the body through, 401 surfaces as 502
(never 401), status ≥ 500 as 502, connection failure as 502, and
timeout as 504. -/
theorem c3_actual_classification :
    proxy_to_groq (UpstreamOutcome.response 429 "b") 7 =
      Except.error
        { message := "Groq API request failed: Groq API rate limit exceeded"
          status_code := 502, groq_status := none } ∧
    exceptStatus (proxy_to_groq (UpstreamOutcome.response 429 "b") 7) ≠ some 429 ∧
    proxy_to_groq (UpstreamOutcome.response 200 "b") 7 = Except.ok ("b", 200, 7) ∧
    exceptStatus (proxy_to_groq (UpstreamOutcome.response 401 "b") 7) = some 502 ∧
    exceptStatus (proxy_to_groq (UpstreamOutcome.response 503 "b") 7) = some 502 ∧
    exceptStatus (proxy_to_groq UpstreamOutcome.connectError 7) = some 502 ∧
    exceptStatus (proxy_to_groq UpstreamOutcome.timeout 7) = some 504 := by
  decide

/-- C4: tier resolution precedence. A persisted override supplies both
tier and limit; otherwise the tier inferred from the trailing 30-day
count is used with its tier-default limit; the inference thresholds are
count > 50000 → enterprise, count > 5000 → pro, else free; and the tier
defaults are free = 50, pro = 1000, enterprise = -1 (unlimited). -/
theorem c4_tier_resolution (config : UserRateLimitConfig) (tier : String) (count : Nat) :
    resolvePolicy tier (DbLookup.found config) = (config.tier, config.custom_limit) ∧
    resolvePolicy (determine_user_tier count) DbLookup.notFound =
      (determine_user_tier count, tierLimit (determine_user_tier count)) ∧
    (50000 < count → determine_user_tier count = "enterprise") ∧
    (5000 < count → count ≤ 50000 → determine_user_tier count = "pro") ∧
    (count ≤ 5000 → determine_user_tier count = "free") ∧
    tierLimit "free" = 50 ∧ tierLimit "pro" = 1000 ∧ tierLimit "enterprise" = -1 := by
  refine ⟨rfl, rfl, ?_, ?_, ?_, by decide, by decide, by decide⟩
  · intro h
    unfold determine_user_tier
    rw [if_pos h]
  · intro h1 h2
    unfold determine_user_tier
    rw [if_neg (by omega), if_pos h1]
  · intro h
    unfold determine_user_tier
    rw [if_neg (by omega), if_neg (by omega)]

/-- Persisted override used in the C4 witness. -/
def c4Config : UserRateLimitConfig :=
  { user_id := "u4", tier := "pro", custom_limit := 777 }

/-- C4 witness: the precedence facts at a concrete override and a 30-day
count of 6000 (the pro threshold band). -/
theorem c4_tier_resolution_witness :
    resolvePolicy "free" (DbLookup.found c4Config) = ("pro", 777) ∧
    resolvePolicy (determine_user_tier 6000) DbLookup.notFound =
      (determine_user_tier 6000, tierLimit (determine_user_tier 6000)) ∧
    determine_user_tier 6000 = "pro" ∧
    tierLimit "free" = 50 ∧ tierLimit "pro" = 1000 ∧ tierLimit "enterprise" = -1 :=
  ⟨(c4_tier_resolution c4Config "free" 6000).1,
   (c4_tier_resolution c4Config "free" 6000).2.1,
   (c4_tier_resolution c4Config "free" 6000).2.2.2.1 (by omega) (by omega),
   (c4_tier_resolution c4Config "free" 6000).2.2.2.2.2.1,
   (c4_tier_resolution c4Config "free" 6000).2.2.2.2.2.2.1,
   (c4_tier_resolution c4Config "free" 6000).2.2.2.2.2.2.2⟩

/-- C8 counterexample: complete a pending record successfully with
non-zero token usage, then complete it again with success = false (a
repeated completion, which the claim covers): the token counts from the
first completion persist while success = false, violating the invariant
that token counts are zero unless success = true. -/
theorem c8_counterexample :
    ¬ recordInvariant
        (log_response
          (log_response (newRequestLog "r8" "u8") 200 true
            (some { prompt_tokens := 5, completion_tokens := 7, total_tokens := 12 })
            none 10 8 100)
          504 false none (some "Groq API request timeout") 30 0 200) := by
  decide

/-- C8 (amended): the invariant — completed_at set iff success is
non-pending, token counts zero unless success = true — holds for every
freshly created record, is preserved by any completion of a record not
already completed successfully (in particular by every completion of a
pending record), and holds after each of the orchestrator's three
finalization paths applied to the record it just created; only a repeated
completion that follows a successful, token-recording completion with
success ≠ true can break it (the counterexample). -/
theorem c8_invariant (rid uid : String) (entry : RequestLogRec)
    (status : Nat) (success : Bool) (rd : Option UsageData) (err : Option String)
    (lat glat now : Nat) (usage : UsageData) (e : GroqAPIError) (msg : String)
    (hpend : entry.success ≠ some true) (hinv : recordInvariant entry) :
    recordInvariant (newRequestLog rid uid) ∧
    recordInvariant (log_response entry status success rd err lat glat now) ∧
    recordInvariant (orchestratorUpdateSuccess (newRequestLog rid uid) status usage now lat glat) ∧
    recordInvariant (orchestratorUpdateGroqError (newRequestLog rid uid) e now lat) ∧
    recordInvariant (orchestratorUpdateUnexpected (newRequestLog rid uid) msg now lat) := by
  have htok : entry.prompt_tokens = 0 ∧ entry.completion_tokens = 0 ∧
      entry.total_tokens = 0 := by
    rcases hinv.2 with h | h
    · exact absurd h hpend
    · exact h
  refine ⟨⟨rfl, Or.inr ⟨rfl, rfl, rfl⟩⟩, ?_, ⟨rfl, Or.inl rfl⟩,
    ⟨rfl, Or.inr ⟨rfl, rfl, rfl⟩⟩, ⟨rfl, Or.inr ⟨rfl, rfl, rfl⟩⟩⟩
  cases success with
  | true =>
    cases rd with
    | none => exact ⟨rfl, Or.inl rfl⟩
    | some u => exact ⟨rfl, Or.inl rfl⟩
  | false =>
    cases rd with
    | none => exact ⟨rfl, Or.inr htok⟩
    | some u => exact ⟨rfl, Or.inr htok⟩

/-- C8 witness: the amended invariant facts at a concrete pending record
and concrete completion arguments. -/
theorem c8_invariant_witness :
    recordInvariant (newRequestLog "r8w" "u8w") ∧
    recordInvariant (log_response (newRequestLog "r8w" "u8w") 200 true
      (some { prompt_tokens := 1, completion_tokens := 2, total_tokens := 3 })
      none 10 8 100) ∧
    recordInvariant (orchestratorUpdateSuccess (newRequestLog "r8w" "u8w") 200
      { prompt_tokens := 1, completion_tokens := 2, total_tokens := 3 } 100 10 8) ∧
    recordInvariant (orchestratorUpdateGroqError (newRequestLog "r8w" "u8w")
      { message := "Groq API server error", status_code := 502, groq_status := some 503 }
      100 10) ∧
    recordInvariant (orchestratorUpdateUnexpected (newRequestLog "r8w" "u8w")
      "boom" 100 10) :=
  c8_invariant "r8w" "u8w" (newRequestLog "r8w" "u8w") 200 true
    (some { prompt_tokens := 1, completion_tokens := 2, total_tokens := 3 })
    none 10 8 100
    { prompt_tokens := 1, completion_tokens := 2, total_tokens := 3 }
    { message := "Groq API server error", status_code := 502, groq_status := some 503 }
    "boom" (by decide) (by decide)

/-- C9 counterexample: a successful completion with token usage followed
by a failed completion does not leave the record in the state a single
second call would produce — the first call's token counts persist, so
last-write-wins fails as stated. -/
theorem c9_counterexample :
    log_response
        (log_response (newRequestLog "r9" "u9") 200 true
          (some { prompt_tokens := 5, completion_tokens := 7, total_tokens := 12 })
          none 10 8 100)
        503 false none (some "Groq API server error") 30 0 200 ≠
      log_response (newRequestLog "r9" "u9") 503 false none
        (some "Groq API server error") 30 0 200 := by
  decide

/-- C9 (amended): log_response never raises (it is a total update, and
the service additionally swallows storage errors); calling it twice
overwrites status_code, success, error, both latencies and completed_at
with the second call's arguments, and when the second call reports
success = true with response data the final record is exactly what the
second call alone would produce; only the token counts of a second call
without success-plus-usage retain the first call's values. -/
theorem c9_last_write (entry : RequestLogRec) (s1 s2 : Nat) (b1 : Bool)
    (rd1 : Option UsageData) (u : UsageData) (e1 e2 : Option String)
    (l1 l2 g1 g2 t1 t2 : Nat) :
    (log_response (log_response entry s1 b1 rd1 e1 l1 g1 t1) s2 true (some u) e2 l2 g2 t2 =
      log_response entry s2 true (some u) e2 l2 g2 t2) ∧
    ∀ (b2 : Bool) (rd2 : Option UsageData),
      (log_response (log_response entry s1 b1 rd1 e1 l1 g1 t1)
          s2 b2 rd2 e2 l2 g2 t2).status_code = some s2 ∧
      (log_response (log_response entry s1 b1 rd1 e1 l1 g1 t1)
          s2 b2 rd2 e2 l2 g2 t2).success = some b2 ∧
      (log_response (log_response entry s1 b1 rd1 e1 l1 g1 t1)
          s2 b2 rd2 e2 l2 g2 t2).error = e2 ∧
      (log_response (log_response entry s1 b1 rd1 e1 l1 g1 t1)
          s2 b2 rd2 e2 l2 g2 t2).completed_at = some t2 ∧
      (log_response (log_response entry s1 b1 rd1 e1 l1 g1 t1)
          s2 b2 rd2 e2 l2 g2 t2).latency_ms = some l2 ∧
      (log_response (log_response entry s1 b1 rd1 e1 l1 g1 t1)
          s2 b2 rd2 e2 l2 g2 t2).groq_latency_ms = some g2 := by
  constructor
  · cases rd1 with
    | none => rfl
    | some u1 => cases b1 <;> rfl
  · intro b2 rd2
    cases rd2 with
    | none => exact ⟨rfl, rfl, rfl, rfl, rfl, rfl⟩
    | some u2 => cases b2 <;> exact ⟨rfl, rfl, rfl, rfl, rfl, rfl⟩

/-- C10: get_remaining_quota with a finite non-negative limit reports the
stored count as used and remaining = max 0 (limit - used) — never
negative, even when the stored count exceeds the limit — and on a store
read failure reports used = 0 and remaining = limit without raising. -/
theorem c10_quota (u t : String) (db : DbLookup) (now : Nat) (s : RedisStore)
    (L : Nat) (hL : resolvedLimit t db = (L : Int)) :
    (get_remaining_quota u t db now s false).used = storeCount s (checkKey u now) ∧
    (get_remaining_quota u t db now s false).remaining =
      max 0 ((L : Int) - (storeCount s (checkKey u now) : Int)) ∧
    0 ≤ (get_remaining_quota u t db now s false).remaining ∧
    (get_remaining_quota u t db now s true).used = 0 ∧
    (get_remaining_quota u t db now s true).remaining = (L : Int) := by
  have hfin : ¬ resolvedLimit t db = -1 := by rw [hL]; omega
  refine ⟨?_, ?_, ?_, ?_, ?_⟩
  · simp [get_remaining_quota, hfin]
  · simp [get_remaining_quota, hfin, hL]
  · simp only [get_remaining_quota, if_neg hfin]
    simp
  · simp [get_remaining_quota, hfin]
  · simp [get_remaining_quota, hfin, hL]

/-- C10 witness: user u10 with stored count 60 over the free limit 50:
remaining is clamped to 0; with a failing store the report is
used = 0, remaining = 50. -/
theorem c10_quota_witness :
    (get_remaining_quota "u10" "free" DbLookup.noDb 0
        [("ratelimit:u10:0", 60)] false).used =
      storeCount [("ratelimit:u10:0", 60)] (checkKey "u10" 0) ∧
    (get_remaining_quota "u10" "free" DbLookup.noDb 0
        [("ratelimit:u10:0", 60)] false).remaining =
      max 0 ((50 : Int) - (storeCount [("ratelimit:u10:0", 60)] (checkKey "u10" 0) : Int)) ∧
    0 ≤ (get_remaining_quota "u10" "free" DbLookup.noDb 0
        [("ratelimit:u10:0", 60)] false).remaining ∧
    (get_remaining_quota "u10" "free" DbLookup.noDb 0
        [("ratelimit:u10:0", 60)] true).used = 0 ∧
    (get_remaining_quota "u10" "free" DbLookup.noDb 0
        [("ratelimit:u10:0", 60)] true).remaining = (50 : Int) :=
  c10_quota "u10" "free" DbLookup.noDb 0 [("ratelimit:u10:0", 60)] 50 (by decide)

end Intellirate
